import Mathlib

/-!
Verification of the pump-fun-bot holder-analysis core (`analytics.py`,
`trade.py`) against its natural-language specification.

The Python source is shallowly embedded: every network fetch becomes an
explicit input (page responses, account-info responses, the distinct-owner
count, the current wall-clock time), every predicate becomes a computable
Lean function mirroring the Python control flow line by line, and Python
exceptions become `Option`/explicit `raises` constructors.  Percentages are
modelled as rationals (`ℚ`): the Python code computes them as
`amount / total_supply * 100` and only ever compares them with `<=`, `>`,
`>=` against integer thresholds.
-/

namespace PumpFun

/-- Constant `SPL_TOKEN_PROGRAM_ID` from `analytics.py`. -/
def SPL_TOKEN_PROGRAM_ID : String := "TokenkegQfeZyiNwAJbNbGKPFXCWuBvf9Ss623VQ5DA"

/-- The hardcoded venue-wide total supply from `get_top_holders`
(`total_supply = 1000000000000000`). -/
def TOTAL_SUPPLY : ℕ := 1000000000000000

/-- One entry of the `top_holders` list built by `get_top_holders`:
`{"rank": idx, "address": owner_wallet, "amount": ..., "percentage": ...,
"is_dev": ...}`. -/
structure Holder where
  rank : ℕ
  address : String
  amount : ℕ
  percentage : ℚ
  is_dev : Bool
  deriving Repr, DecidableEq

/-- Function `check_holder_count` (analytics.py:252-258): the freshly fetched
distinct-owner count is compared against the threshold with `>=`.  The
fetched count is passed in explicitly (the fetch is a network call). -/
def check_holder_count (count : ℕ) (threshold : ℕ) : Bool :=
  count ≥ threshold

/-- Function `check_dev_wallet_sold` (analytics.py:261-271).  `if not top_holders:
return False`; otherwise return `False` as soon as some holder has
`address == str(dev_wallet)` and `percentage >= threshold`, else `True`.
The analyzer is modelled as constructed with a creator wallet string, as
`trade.py` always does (`HolderCountAnalyzer(client, token_data['user'], ...)`). -/
def check_dev_wallet_sold (dev_wallet : String) (threshold : ℚ)
    (top_holders : List Holder) : Bool :=
  if top_holders.isEmpty then false
  else if top_holders.any fun h => h.address == dev_wallet && decide (h.percentage ≥ threshold)
    then false
  else true

/-- Function `check_lp_liquidity` (analytics.py:274-284).  `if not top_holders:
return False`; otherwise return `True` as soon as some holder has
`address == str(bonding_curve)` and `percentage <= thresholdUpper` and
`percentage > thresholdLower`, else `False`. -/
def check_lp_liquidity (bonding_curve : String) (thresholdLower thresholdUpper : ℚ)
    (top_holders : List Holder) : Bool :=
  if top_holders.isEmpty then false
  else top_holders.any fun h =>
    h.address == bonding_curve && decide (h.percentage ≤ thresholdUpper)
      && decide (h.percentage > thresholdLower)

/-- Function `check_time_limit` (analytics.py:287-292):
`int(time.time()) - startEpochTime <= timeLimit`.  The current wall-clock
second is passed in explicitly. -/
def check_time_limit (now startEpochTime timeLimit : ℤ) : Bool :=
  now - startEpochTime ≤ timeLimit

/-- One response of the paged `getTokenAccounts` endpoint queried by
`get_holder_count`: the HTTP/JSON call may raise, the JSON may lack a
`result` field, or it carries a list of `(owner, token_account)` pairs. -/
inductive PageFetch where
  | raises
  | missing
  | accounts (l : List (String × String))
  deriving Repr, DecidableEq

/-- The owners appearing on one page (`account['owner']` for each entry);
empty for a raising or malformed page. -/
def pageOwners : PageFetch → Finset String
  | .raises => ∅
  | .missing => ∅
  | .accounts l => (l.map Prod.fst).toFinset

/-- The `while True` pagination loop of `get_holder_count`
(analytics.py:42-77), run against the sequence of responses the endpoint
returns for pages 1, 2, 3, ….  Returns `none` when a fetch raises (the
function has no handler, so the exception propagates), otherwise the
accumulated owner set together with the number of page requests issued.
The `[]` base case (server sequence exhausted with no terminating page) is
outside every property below: the real loop would keep requesting. -/
def getHolderCountLoop : List PageFetch → Finset String → Option (Finset String × ℕ)
  | [], acc => some (acc, 0)
  | .raises :: _, _ => none
  | .missing :: _, acc => some (acc, 1)
  | .accounts l :: rest, acc =>
    if l.isEmpty then some (acc, 1)
    else
      match getHolderCountLoop rest (acc ∪ (l.map Prod.fst).toFinset) with
      | none => none
      | some (s, n) => some (s, n + 1)

/-- Function `get_holder_count` (analytics.py:32-77): the distinct-owner count
(`len(all_owners)`), paired with the number of page requests issued;
`none` when the underlying call raised. -/
def get_holder_count (pages : List PageFetch) : Option (ℕ × ℕ) :=
  (getHolderCountLoop pages ∅).map fun p => (p.1.card, p.2)

/-- One `get_account_info` response value for a token account: the declared
owning program (`response.value.owner`), whether the data field is raw
bytes (`isinstance(account_data, bytes)`), and the bytes themselves. -/
structure AccountInfo where
  owner : String
  dataIsBytes : Bool
  data : List ℕ
  deriving Repr, DecidableEq

/-- Function `get_owner_wallet` (analytics.py:101-144).  `none` models both a `None`
return and a raised-then-caught exception; `response = none` models
`response.value is None`.  On success the owner field is bytes 32-63 of the
record (`account_data[32:64]`). -/
def get_owner_wallet (response : Option AccountInfo) : Option (List ℕ) :=
  match response with
  | none => none
  | some info =>
    if info.owner ≠ SPL_TOKEN_PROGRAM_ID then none
    else if ¬ info.dataIsBytes then none
    else if info.data.length < 64 then none
    else some ((info.data.drop 32).take 32)

/-- One entry of `response.value` from `get_token_largest_accounts`:
token-account address and raw balance. -/
structure LargestAccount where
  address : String
  amount : ℕ
  deriving Repr, DecidableEq

/-- The holder record built inside `get_top_holders` (analytics.py:194-204)
for the account at 1-based position `idx` whose owner resolved to `w`. -/
def mkHolder (dev_wallet : String) (idx : ℕ) (acct : LargestAccount) (w : String) : Holder :=
  { rank := idx
    address := w
    amount := acct.amount
    percentage := if TOTAL_SUPPLY > 0 then ((acct.amount : ℚ) / (TOTAL_SUPPLY : ℚ)) * 100 else 0
    is_dev := w == dev_wallet }

/-- The `for idx, (account, owner_wallet) in enumerate(zip(...), start=1)`
compilation loop of `get_top_holders`: a holder whose owner wallet is
`None` is skipped with `continue`, but `idx` advances for every zipped
pair, so surviving records keep their original 1-based position. -/
def compileHolders (dev_wallet : String) :
    ℕ → List (LargestAccount × Option String) → List Holder
  | _, [] => []
  | idx, (_, none) :: rest => compileHolders dev_wallet (idx + 1) rest
  | idx, (a, some w) :: rest => mkHolder dev_wallet idx a w :: compileHolders dev_wallet (idx + 1) rest

/-- Function `get_top_holders` (analytics.py:146-222) with
`CONVERT_TO_OWNER_WALLET_ADDRESSES = True`: the largest accounts are
truncated to `top_n`, each is resolved to an owner wallet concurrently
(`asyncio.gather` keeps positional order, modelled by the `owner_wallets`
list), and the records are compiled with 1-based ranks.  The dead
`total_supply == 0` guard is kept (`TOTAL_SUPPLY` is the nonzero constant). -/
def get_top_holders (dev_wallet : String) (largest : List LargestAccount)
    (owner_wallets : List (Option String)) (top_n : ℕ) : List Holder :=
  if TOTAL_SUPPLY = 0 then []
  else compileHolders dev_wallet 1 ((largest.take top_n).zip owner_wallets)

/-- The branch `make_decision` (analytics.py:299-338) returns through, one
constructor per distinct exit point of the function body.  `no_data` is the
`return True` after "No top holders found"; `keep_going` is the final
`return True`. -/
inductive Verdict where
  | no_data
  | trade_cleared
  | special_cleared
  | exhausted
  | timeout
  | keep_going
  deriving Repr, DecidableEq

/-- The Python value `make_decision` actually returns on each branch:
`True` (truthy, the analyser loop continues) for `no_data` and
`keep_going`, `False` (falsy, the loop breaks) for every other branch. -/
def Verdict.toBool : Verdict → Bool
  | .no_data => true
  | .trade_cleared => false
  | .special_cleared => false
  | .exhausted => false
  | .timeout => false
  | .keep_going => true

/-- The environment one `make_decision` iteration observes: the snapshot
returned by `get_top_holders`, the distinct-owner count returned by
`get_holder_count` (the endpoint is deterministic within the iteration, so
the repeated fetches inside one call agree), and the wall-clock second. -/
structure DecisionEnv where
  top_holders : List Holder
  holder_count : ℕ
  now : ℤ
  deriving Repr, DecidableEq

/-- Function `make_decision` (analytics.py:299-338), body inside its `try`.  The
gate calls mirror the source order: empty-snapshot early return, then
`check_time_limit`, `check_holder_count(holder_threshold)`,
`check_dev_wallet_sold`, `check_lp_liquidity(lower, upper)`; primary
clearance, then the hardcoded special rule
(`check_holder_count(60) and check_lp_liquidity(60, 80) and time_met and
not dev_wallet_sold`), then the bonding-curve `>= 99` exhaustion scan, then
the timeout exit, else continue. -/
def make_decision (dev_wallet bonding_curve : String) (holder_threshold : ℕ)
    (dev_threshold lp_threshold_lower lp_threshold_upper : ℚ)
    (startEpochTime timeLimit : ℤ) (env : DecisionEnv) : Verdict :=
  if env.top_holders.isEmpty then .no_data
  else
    let time_met := check_time_limit env.now startEpochTime timeLimit
    let holder_count_met := check_holder_count env.holder_count holder_threshold
    let dev_wallet_sold := check_dev_wallet_sold dev_wallet dev_threshold env.top_holders
    let lp_liquidity_met :=
      check_lp_liquidity bonding_curve lp_threshold_lower lp_threshold_upper env.top_holders
    if holder_count_met && dev_wallet_sold && lp_liquidity_met && time_met then .trade_cleared
    else if check_holder_count env.holder_count 60
        && check_lp_liquidity bonding_curve 60 80 env.top_holders
        && time_met && !dev_wallet_sold then .special_cleared
    else if env.top_holders.any
        (fun h => h.address == bonding_curve && decide (h.percentage ≥ (99 : ℚ))) then .exhausted
    else if !time_met then .timeout
    else .keep_going

/-- The value the analyser reads from one decision cycle
(`proceed = await make_decision(...)`): `make_decision` catches every
exception in its own `try` and then falls off the end, returning `None`
(falsy), modelled by the `none` environment. -/
def decideIter (dev_wallet bonding_curve : String) (holder_threshold : ℕ)
    (dev_threshold lp_threshold_lower lp_threshold_upper : ℚ)
    (startEpochTime timeLimit : ℤ) (env : Option DecisionEnv) : Bool :=
  match env with
  | none => false
  | some e =>
    (make_decision dev_wallet bonding_curve holder_threshold dev_threshold
      lp_threshold_lower lp_threshold_upper startEpochTime timeLimit e).toBool

/-- The `for i in range(12 * 5)` loop of `analyser` (trade.py:153-169),
driven by the truthiness of each iteration's decision.  Returns the number
of decision cycles executed and the list of `asyncio.sleep` durations
issued; `proceed i` is the truthiness of iteration `i`'s verdict (0-based).
An iteration whose verdict is falsy executes, then `break`s before any
sleep. -/
def analyserLoop (proceed : ℕ → Bool) : ℕ → ℕ → ℕ × List ℕ
  | 0, _ => (0, [])
  | fuel + 1, i =>
    if proceed i then
      let r := analyserLoop proceed fuel (i + 1)
      (r.1 + 1, 5 :: r.2)
    else (1, [])

/-- Decision loop of `analyser`: at most `12 * 5 = 60` iterations. -/
def analyser (proceed : ℕ → Bool) : ℕ × List ℕ :=
  analyserLoop proceed (12 * 5) 0

/-- What `monitorTokenCreation` does with one consumed launch event. -/
inductive OrchestratorAction where
  | spawned (mint : String)
  | dropped (mint : String)
  deriving Repr, DecidableEq

/-- The admission step of `monitorTokenCreation` (trade.py:132-150): read
`len(asyncio.all_tasks())`; below 200 spawn `analyser` as an unawaited
`asyncio.create_task`, otherwise log and drop the event. -/
def monitorStep (numTasks : ℕ) (mint : String) : OrchestratorAction :=
  if numTasks < 200 then .spawned mint else .dropped mint

/-- The `while True` consumption loop of `monitorTokenCreation`, run over a
trace of consumed launch events, each paired with the task count observed
when it arrived.  The loop keeps no queue: each event is decided on the
spot and the loop immediately waits for the next event, so the output is
one action per event. -/
def monitorTokenCreation (trace : List (String × ℕ)) : List OrchestratorAction :=
  trace.map fun e => monitorStep e.2 e.1

/-! ## Gate predicates: creator-exit and liquidity-range -/

/-- C3 counterexample.  The claim says `check_dev_wallet_sold` returns true
on every snapshot with no creator-owned record, "including the empty
snapshot"; but `analytics.py:262` (`if not top_holders: return False`)
makes the empty snapshot return `False`. -/
theorem check_dev_wallet_sold_empty_false :
    check_dev_wallet_sold "DEV" 1 [] = false := by decide

/-- C3 (amended).  On every NON-empty snapshot, `check_dev_wallet_sold` is
true iff no record owned by the creator wallet has percentage ≥ the
threshold (so creator absence in a non-empty snapshot means exited); on the
empty snapshot it returns false. -/
theorem check_dev_wallet_sold_spec (dev : String) (thr : ℚ) (hs : List Holder)
    (hne : hs ≠ []) :
    (check_dev_wallet_sold dev thr hs = true ↔
      ¬ ∃ h ∈ hs, h.address = dev ∧ thr ≤ h.percentage) ∧
    check_dev_wallet_sold dev thr [] = false := by
  constructor
  · unfold check_dev_wallet_sold
    have hemp : hs.isEmpty = false := by simpa [List.isEmpty_iff] using hne
    simp [hemp, List.any_eq_true]
  · rfl

/-- C3 witness: a one-record snapshot not owned by the creator wallet. -/
theorem check_dev_wallet_sold_spec_witness :
    check_dev_wallet_sold "DEV" 1 [⟨1, "W", 5, 5, false⟩] = true := by
  have h := (check_dev_wallet_sold_spec "DEV" 1 [⟨1, "W", 5, 5, false⟩] (by decide)).1
  rw [h]
  rintro ⟨x, hx, ha, _⟩
  simp only [List.mem_singleton] at hx
  subst hx
  exact absurd ha (by decide)

/-- C4.  `check_lp_liquidity bc lower upper` is true iff some record owned
by the bonding-curve account has `lower < percentage ≤ upper`
(analytics.py:280: `percentage <= thresholdUpper and percentage >
thresholdLower`); with bounds (70, 80) it is true at exactly 80 and false
at exactly 70, and false when no bonding-curve record is present (the
existential is then unsatisfiable, and the empty snapshot returns false
through the `if not top_holders` guard). -/
theorem check_lp_liquidity_spec (bc : String) (lower upper : ℚ) (hs : List Holder) :
    (check_lp_liquidity bc lower upper hs = true ↔
      ∃ h ∈ hs, h.address = bc ∧ lower < h.percentage ∧ h.percentage ≤ upper) ∧
    check_lp_liquidity "BC" 70 80 [⟨1, "BC", 0, 80, false⟩] = true ∧
    check_lp_liquidity "BC" 70 80 [⟨1, "BC", 0, 70, false⟩] = false := by
  refine ⟨?_, by decide, by decide⟩
  unfold check_lp_liquidity
  by_cases hemp : hs.isEmpty
  · rw [List.isEmpty_iff] at hemp
    subst hemp
    simp
  · simp only [hemp, if_false, List.any_eq_true, Bool.and_eq_true, beq_iff_eq,
      decide_eq_true_eq, Bool.ite_eq_true_distrib]
    constructor
    · rintro ⟨h, hmem, ⟨ha, hu⟩, hl⟩
      exact ⟨h, hmem, ha, hl, hu⟩
    · rintro ⟨h, hmem, ha, hl, hu⟩
      exact ⟨h, hmem, ⟨ha, hu⟩, hl⟩

/-! ## Pagination: distinct-owner counting -/

/-- Helper: running the pagination loop over non-empty pages followed by a
terminating page (empty `result` list, or a response with no `result`
field) accumulates exactly those pages' owners and issues one request per
page plus the terminating one; nothing after the terminator is touched. -/
theorem getHolderCountLoop_stop (t : PageFetch)
    (ht : t = PageFetch.missing ∨ t = PageFetch.accounts []) (rest : List PageFetch) :
    ∀ (ps : List PageFetch) (acc : Finset String),
      (∀ p ∈ ps, ∃ l, p = PageFetch.accounts l ∧ l ≠ []) →
      getHolderCountLoop (ps ++ t :: rest) acc =
        some (acc ∪ (ps.map pageOwners).foldr (· ∪ ·) ∅, ps.length + 1)
  | [], acc, _ => by
    rcases ht with rfl | rfl <;> simp [getHolderCountLoop]
  | p :: ps, acc, h => by
    obtain ⟨l, rfl, hl⟩ := h p (by simp)
    have hIH := getHolderCountLoop_stop t ht rest ps (acc ∪ (l.map Prod.fst).toFinset)
      (fun q hq => h q (by simp [hq]))
    have hle : l.isEmpty = false := by simpa [List.isEmpty_iff] using hl
    simp [getHolderCountLoop, hle, hIH, pageOwners, Finset.union_assoc]

/-- Helper: a raising page query after any run of good pages makes the
whole `get_holder_count` call raise (`none`), since the loop body has no
exception handler. -/
theorem getHolderCountLoop_raises (rest : List PageFetch) :
    ∀ (ps : List PageFetch) (acc : Finset String),
      (∀ p ∈ ps, ∃ l, p = PageFetch.accounts l ∧ l ≠ []) →
      getHolderCountLoop (ps ++ PageFetch.raises :: rest) acc = none
  | [], _, _ => by simp [getHolderCountLoop]
  | p :: ps, acc, h => by
    obtain ⟨l, rfl, hl⟩ := h p (by simp)
    have hIH := getHolderCountLoop_raises rest ps (acc ∪ (l.map Prod.fst).toFinset)
      (fun q hq => h q (by simp [hq]))
    have hle : l.isEmpty = false := by simpa [List.isEmpty_iff] using hl
    simp [getHolderCountLoop, hle, hIH]

/-- C5.  For a sequence of non-empty pages followed by an empty page,
`get_holder_count` returns the cardinality of the union of the owners over
exactly the non-empty pages (dedup key is the owner, the first component
of each `(owner, token_account)` pair), and issues exactly
`ps.length + 1` page requests — none after the first empty page, whatever
follows it. -/
theorem get_holder_count_pagination (ps rest : List PageFetch)
    (hgood : ∀ p ∈ ps, ∃ l, p = PageFetch.accounts l ∧ l ≠ []) :
    get_holder_count (ps ++ PageFetch.accounts [] :: rest) =
      some (((ps.map pageOwners).foldr (· ∪ ·) ∅).card, ps.length + 1) := by
  unfold get_holder_count
  rw [getHolderCountLoop_stop (PageFetch.accounts []) (Or.inr rfl) rest ps ∅ hgood]
  simp

/-- C5 witness: two pages with owners {a, b} and {a} (distinct token
accounts), then the empty page, then a page that must never be requested:
2 distinct owners, 3 requests. -/
theorem get_holder_count_pagination_witness :
    get_holder_count
      [PageFetch.accounts [("a", "t1"), ("b", "t2")], PageFetch.accounts [("a", "t3")],
        PageFetch.accounts [], PageFetch.raises] = some (2, 3) := by
  have h := get_holder_count_pagination
    [PageFetch.accounts [("a", "t1"), ("b", "t2")], PageFetch.accounts [("a", "t3")]]
    [PageFetch.raises] (by intro p hp; fin_cases hp <;> exact ⟨_, rfl, by decide⟩)
  simp only [List.cons_append, List.nil_append] at h
  rw [h]
  decide

/-- C6 counterexample.  The claim says a raising page query makes the
caller receive 0; but `get_holder_count` (analytics.py:42-77) has no
`try`/`except`, so the exception propagates (`none`), and the caller never
receives the integer 0. -/
theorem get_holder_count_raises_concrete :
    get_holder_count [PageFetch.raises] = none := rfl

/-- C6 (amended).  When an underlying page query raises, the exception
propagates out of `get_holder_count` (modelled as `none`): the caller
receives a propagated exception, not 0.  (It is first caught only by
`make_decision`'s top-level handler, which returns `None`.) -/
theorem get_holder_count_raise_propagates (ps rest : List PageFetch)
    (hgood : ∀ p ∈ ps, ∃ l, p = PageFetch.accounts l ∧ l ≠ []) :
    get_holder_count (ps ++ PageFetch.raises :: rest) = none := by
  unfold get_holder_count
  rw [getHolderCountLoop_raises rest ps ∅ hgood]
  rfl

/-- C6 witness: one good page, then a raising query. -/
theorem get_holder_count_raise_propagates_witness :
    get_holder_count [PageFetch.accounts [("a", "t1")], PageFetch.raises] = none := by
  have h := get_holder_count_raise_propagates [PageFetch.accounts [("a", "t1")]] []
    (by intro p hp; fin_cases hp; exact ⟨_, rfl, by decide⟩)
  simpa only [List.cons_append, List.nil_append] using h

/-- C10.  A page response lacking a `result` field is treated identically
to an empty page (`analytics.py:62`: `if 'result' not in data or len(...)
== 0: break`): pagination stops there, the accumulated distinct-owner
count of the preceding pages is returned, and no further page is
requested. -/
theorem get_holder_count_missing_like_empty (ps rest rest2 : List PageFetch)
    (hgood : ∀ p ∈ ps, ∃ l, p = PageFetch.accounts l ∧ l ≠ []) :
    get_holder_count (ps ++ PageFetch.missing :: rest) =
      get_holder_count (ps ++ PageFetch.accounts [] :: rest2) ∧
    get_holder_count (ps ++ PageFetch.missing :: rest) =
      some (((ps.map pageOwners).foldr (· ∪ ·) ∅).card, ps.length + 1) := by
  have h1 := getHolderCountLoop_stop PageFetch.missing (Or.inl rfl) rest ps ∅ hgood
  have h2 := getHolderCountLoop_stop (PageFetch.accounts []) (Or.inr rfl) rest2 ps ∅ hgood
  unfold get_holder_count
  rw [h1, h2]
  simp

/-- C10 witness: one good page, then a malformed page, then a page that
must never be requested. -/
theorem get_holder_count_missing_like_empty_witness :
    get_holder_count [PageFetch.accounts [("a", "t1")], PageFetch.missing, PageFetch.raises] =
      some (1, 2) := by
  have h := (get_holder_count_missing_like_empty [PageFetch.accounts [("a", "t1")]]
    [PageFetch.raises] [] (by intro p hp; fin_cases hp; exact ⟨_, rfl, by decide⟩)).2
  simp only [List.cons_append, List.nil_append] at h
  rw [h]
  decide

/-! ## Top-holder ranking: owner resolution and rank gaps -/

/-- Helper: the compilation loop of `get_top_holders` equals a `filterMap`
over the zip of positions `k, k+1, …` with the account/wallet pairs:
unresolved owners are dropped, surviving records keep the position they
had before the drop. -/
theorem compileHolders_eq_filterMap (dev : String) :
    ∀ (l : List (LargestAccount × Option String)) (k : ℕ),
      compileHolders dev k l =
        ((List.range' k l.length).zip l).filterMap
          fun p => p.2.2.map fun w => mkHolder dev p.1 p.2.1 w
  | [], k => by simp [compileHolders]
  | (a, w?) :: rest, k => by
    cases w? with
    | none =>
      simp [compileHolders, List.range'_succ, compileHolders_eq_filterMap dev rest (k + 1)]
    | some w =>
      simp [compileHolders, List.range'_succ, compileHolders_eq_filterMap dev rest (k + 1)]

/-- C7.  (i) A successful `get_owner_wallet` resolution happens only for a
present record whose declared owning program is the SPL token program and
whose data is at least 64 bytes, and the resolved owner is bytes 32-63
(`account_data[32:64]`); (ii) a record failing program-ownership or length
validation resolves to no owner; (iii) `get_top_holders` drops exactly the
holders with unresolved owners and gives each surviving record the 1-based
rank of its original position (rank gaps are not renumbered). -/
theorem owner_resolution_rank_spec :
    (∀ (resp : Option AccountInfo) (o : List ℕ), get_owner_wallet resp = some o →
      ∃ info, resp = some info ∧ info.owner = SPL_TOKEN_PROGRAM_ID ∧
        64 ≤ info.data.length ∧ o = (info.data.drop 32).take 32) ∧
    (∀ info : AccountInfo, info.owner ≠ SPL_TOKEN_PROGRAM_ID ∨ info.data.length < 64 →
      get_owner_wallet (some info) = none) ∧
    (∀ (dev : String) (largest : List LargestAccount) (wallets : List (Option String)) (n : ℕ),
      get_top_holders dev largest wallets n =
        ((List.range' 1 ((largest.take n).zip wallets).length).zip
            ((largest.take n).zip wallets)).filterMap
          fun p => p.2.2.map fun w => mkHolder dev p.1 p.2.1 w) := by
  refine ⟨?_, ?_, ?_⟩
  · rintro (_ | info) o h
    · exact absurd h (by simp [get_owner_wallet])
    · refine ⟨info, rfl, ?_⟩
      unfold get_owner_wallet at h
      dsimp only at h
      split_ifs at h with h1 h2 h3
      exact ⟨not_not.mp h1, by omega, by simpa using h.symm⟩
  · rintro info (h | h)
    · unfold get_owner_wallet
      dsimp only
      rw [if_pos h]
    · unfold get_owner_wallet
      dsimp only
      split_ifs <;> rfl
  · intro dev largest wallets n
    unfold get_top_holders
    rw [if_neg (by norm_num [TOTAL_SUPPLY])]
    exact compileHolders_eq_filterMap dev ((largest.take n).zip wallets) 1

/-- C7 witness: a record declared as owned by a non-token program resolves
to no owner. -/
theorem owner_resolution_rank_spec_witness :
    get_owner_wallet (some ⟨"SomeOtherProgram", true, List.replicate 64 0⟩) = none :=
  owner_resolution_rank_spec.2.1 ⟨"SomeOtherProgram", true, List.replicate 64 0⟩
    (Or.inl (by decide))

/-! ## Decision engine -/

/-- C1 counterexample.  The claim says an empty snapshot produces the
terminal `STOP_NO_DATA` verdict, i.e. the loop stops; but
`make_decision` (analytics.py:303-305) returns `True` there ("Skipping
further analysis"), which is truthy, so the analyser's
`if not proceed: break` does NOT fire and the loop continues. -/
theorem make_decision_empty_snapshot_concrete :
    (make_decision "DEV" "BC" 35 1 70 80 0 100 ⟨[], 1000, 0⟩).toBool = true := by decide

/-- C1 (amended).  On an empty snapshot `make_decision` immediately takes
the no-data early return without evaluating any of the five gates (the
result is the same whatever the holder count and clock read), but the
returned value is `True`: the evaluation loop continues rather than
stopping. -/
theorem make_decision_empty_snapshot (dev bc : String) (ht : ℕ) (dt ll lu : ℚ)
    (st tl : ℤ) (env : DecisionEnv) (he : env.top_holders = []) :
    make_decision dev bc ht dt ll lu st tl env = Verdict.no_data ∧
    (make_decision dev bc ht dt ll lu st tl env).toBool = true := by
  have hemp : env.top_holders.isEmpty = true := by simp [he]
  constructor <;> simp [make_decision, hemp, Verdict.toBool]

/-- C1 witness: a concrete empty snapshot. -/
theorem make_decision_empty_snapshot_witness :
    make_decision "DEV" "BC" 35 1 70 80 0 100 ⟨[], 1000, 0⟩ = Verdict.no_data :=
  (make_decision_empty_snapshot "DEV" "BC" 35 1 70 80 0 100 ⟨[], 1000, 0⟩ rfl).1

/-- C2.  On a non-empty snapshot the verdicts come in the source's fixed
order: primary gates (holder count at the given threshold, creator exited,
liquidity in the given range, time within budget) → `trade_cleared`, never
falling through to the relaxed rule; else the relaxed rule (holder count ≥
60, liquidity in (60, 80], time within budget, creator NOT exited) →
`special_cleared`; only then the forced exits, exhaustion (bonding-curve
percentage ≥ 99) before timeout; otherwise continue. -/
theorem make_decision_verdict_order (dev bc : String) (ht : ℕ) (dt ll lu : ℚ)
    (st tl : ℤ) (env : DecisionEnv) (hne : env.top_holders ≠ []) :
    ((check_holder_count env.holder_count ht && check_dev_wallet_sold dev dt env.top_holders
        && check_lp_liquidity bc ll lu env.top_holders
        && check_time_limit env.now st tl) = true →
      make_decision dev bc ht dt ll lu st tl env = Verdict.trade_cleared) ∧
    ((check_holder_count env.holder_count ht && check_dev_wallet_sold dev dt env.top_holders
        && check_lp_liquidity bc ll lu env.top_holders
        && check_time_limit env.now st tl) = false →
      (check_holder_count env.holder_count 60 && check_lp_liquidity bc 60 80 env.top_holders
        && check_time_limit env.now st tl
        && !check_dev_wallet_sold dev dt env.top_holders) = true →
      make_decision dev bc ht dt ll lu st tl env = Verdict.special_cleared) ∧
    ((check_holder_count env.holder_count ht && check_dev_wallet_sold dev dt env.top_holders
        && check_lp_liquidity bc ll lu env.top_holders
        && check_time_limit env.now st tl) = false →
      (check_holder_count env.holder_count 60 && check_lp_liquidity bc 60 80 env.top_holders
        && check_time_limit env.now st tl
        && !check_dev_wallet_sold dev dt env.top_holders) = false →
      (env.top_holders.any fun h => h.address == bc && decide (h.percentage ≥ (99 : ℚ))) = true →
      make_decision dev bc ht dt ll lu st tl env = Verdict.exhausted) ∧
    ((check_holder_count env.holder_count ht && check_dev_wallet_sold dev dt env.top_holders
        && check_lp_liquidity bc ll lu env.top_holders
        && check_time_limit env.now st tl) = false →
      (check_holder_count env.holder_count 60 && check_lp_liquidity bc 60 80 env.top_holders
        && check_time_limit env.now st tl
        && !check_dev_wallet_sold dev dt env.top_holders) = false →
      (env.top_holders.any fun h => h.address == bc && decide (h.percentage ≥ (99 : ℚ))) = false →
      check_time_limit env.now st tl = false →
      make_decision dev bc ht dt ll lu st tl env = Verdict.timeout) ∧
    ((check_holder_count env.holder_count ht && check_dev_wallet_sold dev dt env.top_holders
        && check_lp_liquidity bc ll lu env.top_holders
        && check_time_limit env.now st tl) = false →
      (check_holder_count env.holder_count 60 && check_lp_liquidity bc 60 80 env.top_holders
        && check_time_limit env.now st tl
        && !check_dev_wallet_sold dev dt env.top_holders) = false →
      (env.top_holders.any fun h => h.address == bc && decide (h.percentage ≥ (99 : ℚ))) = false →
      check_time_limit env.now st tl = true →
      make_decision dev bc ht dt ll lu st tl env = Verdict.keep_going) := by
  have hemp : env.top_holders.isEmpty = false := by simpa [List.isEmpty_iff] using hne
  refine ⟨fun h1 => ?_, fun h1 h2 => ?_, fun h1 h2 h3 => ?_,
    fun h1 h2 h3 h4 => ?_, fun h1 h2 h3 h4 => ?_⟩ <;>
    simp only [make_decision, hemp, Bool.false_eq_true, if_false]
  · rw [if_pos h1]
  · rw [if_neg (by simp [h1]), if_pos h2]
  · rw [if_neg (by simp [h1]), if_neg (by simp [h2]), if_pos h3]
  · rw [if_neg (by simp [h1]), if_neg (by simp [h2]), if_neg (by simp [h3]),
      if_pos (by simp [h4])]
  · rw [if_neg (by simp [h1]), if_neg (by simp [h2]), if_neg (by simp [h3]),
      if_neg (by simp [h4])]

/-- C2 witness: 40 holders ≥ threshold 35, no creator record (exited), the
bonding-curve account at 75% ∈ (70, 80], 10 s elapsed of a 100 s budget:
all primary gates hold and the verdict is `trade_cleared`. -/
theorem make_decision_verdict_order_witness :
    make_decision "DEV" "BC" 35 1 70 80 0 100
      ⟨[⟨1, "BC", 750000000000000, 75, false⟩], 40, 10⟩ = Verdict.trade_cleared :=
  (make_decision_verdict_order "DEV" "BC" 35 1 70 80 0 100
    ⟨[⟨1, "BC", 750000000000000, 75, false⟩], 40, 10⟩ (by decide)).1 (by decide)

/-! ## Evaluation loop and orchestrator -/

/-- Helper: the analyser loop executes at most `fuel` decision cycles. -/
theorem analyserLoop_le (proceed : ℕ → Bool) :
    ∀ (fuel i : ℕ), (analyserLoop proceed fuel i).1 ≤ fuel
  | 0, _ => Nat.le_refl 0
  | fuel + 1, i => by
    unfold analyserLoop
    by_cases h : proceed i = true
    · simp only [h, if_true]
      exact Nat.succ_le_succ (analyserLoop_le proceed fuel (i + 1))
    · rw [if_neg h]
      exact Nat.succ_le_succ (Nat.zero_le fuel)

/-- Helper: every sleep the analyser loop issues is 5 seconds. -/
theorem analyserLoop_sleeps (proceed : ℕ → Bool) :
    ∀ (fuel i s : ℕ), s ∈ (analyserLoop proceed fuel i).2 → s = 5
  | 0, _, _ => by intro h; simp [analyserLoop] at h
  | fuel + 1, i, s => by
    intro hmem
    unfold analyserLoop at hmem
    by_cases h : proceed i = true
    · rw [if_pos h] at hmem
      rcases List.mem_cons.mp hmem with h5 | htail
      · exact h5
      · exact analyserLoop_sleeps proceed fuel (i + 1) s htail
    · rw [if_neg h] at hmem
      simp at hmem

/-- Helper: the loop exits right after the first iteration whose decision
is falsy. -/
theorem analyserLoop_first_stop (proceed : ℕ → Bool) :
    ∀ (fuel k i : ℕ), k < fuel → (∀ j, j < k → proceed (i + j) = true) →
      proceed (i + k) = false → (analyserLoop proceed fuel i).1 = k + 1
  | 0, k, _ => fun hk => absurd hk (Nat.not_lt_zero k)
  | fuel + 1, 0, i => by
    intro _ _ hstop
    unfold analyserLoop
    rw [Nat.add_zero] at hstop
    rw [if_neg (by simp [hstop])]
  | fuel + 1, k + 1, i => by
    intro hk hall hstop
    have hpi : proceed i = true := by simpa using hall 0 (Nat.succ_pos k)
    unfold analyserLoop
    rw [if_pos hpi]
    have hrec := analyserLoop_first_stop proceed fuel k (i + 1) (by omega)
      (fun j hj => by
        have h2 := hall (j + 1) (by omega)
        rwa [show i + (j + 1) = i + 1 + j from by omega] at h2)
      (by rwa [show i + (k + 1) = i + 1 + k from by omega] at hstop)
    simp [hrec]

/-- C9.  The analyser loop (trade.py:161-169) (i) executes at most
`12 * 5 = 60` decision cycles, (ii) sleeps exactly 5 seconds between
cycles, (iii) exits immediately after the first cycle whose verdict is
falsy (the `if not proceed: break`), and (iv) an unexpected error during a
decision cycle (caught by `make_decision`'s handler, which returns `None`)
is falsy, hence terminal for the loop; so the loop always terminates. -/
theorem analyser_bounded_termination (proceed : ℕ → Bool) :
    (analyser proceed).1 ≤ 60 ∧
    (∀ s ∈ (analyser proceed).2, s = 5) ∧
    (∀ k, k < 60 → (∀ j, j < k → proceed j = true) → proceed k = false →
      (analyser proceed).1 = k + 1) ∧
    (∀ (dev bc : String) (ht : ℕ) (dt ll lu : ℚ) (st tl : ℤ),
      decideIter dev bc ht dt ll lu st tl none = false) := by
  refine ⟨?_, ?_, ?_, fun _ _ _ _ _ _ _ _ => rfl⟩
  · exact analyserLoop_le proceed (12 * 5) 0
  · exact fun s hs => analyserLoop_sleeps proceed (12 * 5) 0 s hs
  · intro k hk hall hstop
    exact analyserLoop_first_stop proceed (12 * 5) k 0 (by omega)
      (fun j hj => by simpa using hall j hj) (by simpa using hstop)

/-- C9 witness: a decision stream that is truthy for iterations 0-2 and
falsy at iteration 3 runs exactly 4 cycles. -/
theorem analyser_bounded_termination_witness :
    (analyser fun i => decide (i < 3)).1 = 3 + 1 :=
  (analyser_bounded_termination fun i => decide (i < 3)).2.2.1 3 (by omega)
    (fun j hj => by simpa using hj) (by simp)

/-- C8.  `monitorTokenCreation` (trade.py:132-150) produces exactly one
action per consumed launch event (nothing is queued for later): an event
consumed while the observed live-task count is at or above 200 is dropped
and no evaluation loop is started for it, and an event consumed below the
ceiling spawns a new analyser task (an unawaited `asyncio.create_task`). -/
theorem orchestrator_admission (trace : List (String × ℕ)) (i : ℕ)
    (hi : i < trace.length) (hi2 : i < (monitorTokenCreation trace).length) :
    (monitorTokenCreation trace).length = trace.length ∧
    (200 ≤ (trace.get ⟨i, hi⟩).2 →
      (monitorTokenCreation trace).get ⟨i, hi2⟩ =
        OrchestratorAction.dropped (trace.get ⟨i, hi⟩).1) ∧
    ((trace.get ⟨i, hi⟩).2 < 200 →
      (monitorTokenCreation trace).get ⟨i, hi2⟩ =
        OrchestratorAction.spawned (trace.get ⟨i, hi⟩).1) := by
  have hstep : (monitorTokenCreation trace).get ⟨i, hi2⟩ =
      monitorStep (trace.get ⟨i, hi⟩).2 (trace.get ⟨i, hi⟩).1 := by
    simp [monitorTokenCreation, List.get_eq_getElem, List.getElem_map]
  refine ⟨by simp [monitorTokenCreation], fun h => ?_, fun h => ?_⟩
  · rw [hstep, monitorStep, if_neg (by omega)]
  · rw [hstep, monitorStep, if_pos h]

/-- C8 witness: with 200 live tasks observed, the event is dropped. -/
theorem orchestrator_admission_witness :
    (monitorTokenCreation [("m1", 5), ("m2", 200)]).get ⟨1, by decide⟩ =
      OrchestratorAction.dropped "m2" :=
  (orchestrator_admission [("m1", 5), ("m2", 200)] 1 (by decide) (by decide)).2.1
    (by decide)

end PumpFun
